import Mathlib

/-!
Shallow embedding of `src/geogrid_to_nc.c` (WRF geogrid to NetCDF convertor).

The statistics aggregator (`print_statistics`, lines 52-71) and the
orchestrator (`main`, lines 171-214, after option parsing) are embedded from
the source.  The binary tile decoder is the external WRF routine
`read_geogrid`, whose code is not part of this repository; it is modelled
from the specification.  Samples are embedded as rationals; the NetCDF
library calls are embedded as a step trace whose per-step success is an
external oracle `env : NcStep → Bool`.
-/

namespace Geogrid

/-- A byte of the input tile, 0..255. -/
abbrev Byte := Nat

/-- The validated configuration consumed by the core (spec section 3). -/
structure TileConfig where
  nx : Nat
  ny : Nat
  nz : Nat
  wsize : Nat
  issigned : Bool
  littleEndian : Bool
  scale : ℚ
deriving DecidableEq

/-- Modelled from the spec: byte reassembly of one `wsize`-byte word of the
external `read_geogrid` decoder.  Big endian: first byte most significant;
little endian: first byte least significant. -/
def assembleWord (littleEndian : Bool) (ws : List Byte) : Nat :=
  (if littleEndian then ws.reverse else ws).foldl (fun acc b => acc * 256 + b) 0

/-- Modelled from the spec: two's-complement reinterpretation of a
`wsize`-byte unsigned word when the signed flag is set. -/
def toSigned (wsize : Nat) (u : Nat) : Int :=
  if 2 ^ (8 * wsize - 1) ≤ u then (u : Int) - 2 ^ (8 * wsize) else (u : Int)

/-- Modelled from the spec: the external `read_geogrid` binary tile decoder
(not part of this repository; `main` calls it at line 175).  Rejects a zero
scale, fails on input shorter than `wsize*nx*ny*nz` bytes, otherwise
reassembles each word, applies the sign interpretation and divides by the
scale, producing the samples in `[z][y][x]` row-major order. -/
def decode (bytes : List Byte) (cfg : TileConfig) : Except String (List ℚ) :=
  if cfg.scale = 0 then Except.error "InvalidScaleError"
  else if bytes.length < cfg.wsize * cfg.nx * cfg.ny * cfg.nz then
    Except.error "TruncatedInputError"
  else Except.ok ((List.range (cfg.nx * cfg.ny * cfg.nz)).map (fun n =>
    let ws := (bytes.drop (cfg.wsize * n)).take cfg.wsize
    let u := assembleWord cfg.littleEndian ws
    let v : Int := if cfg.issigned then toSigned cfg.wsize u else (u : Int)
    (v : ℚ) / cfg.scale))

/-- The flat buffer index `k * nx * ny + j * nx + i` computed by
`print_statistics` at line 63 of the source. -/
def statIndex (nx ny k j i : Nat) : Nat :=
  k * nx * ny + j * nx + i

/-- One iteration of the statistics loop body (lines 63-66 of the source):
the accumulator is `(min, max, avg)`; `if (d < min) min = d;
if (d > max) max = d; avg += d`. -/
def statUpdate (acc : ℚ × ℚ × ℚ) (d : ℚ) : ℚ × ℚ × ℚ :=
  (if d < acc.1 then d else acc.1,
   if acc.2.1 < d then d else acc.2.1,
   acc.2.2 + d)

/-- The samples of level `k` in the order the nested loops of
`print_statistics` visit them: `j` outer over `[0,ny)`, `i` inner over
`[0,nx)`, reading `data[statIndex nx ny k j i]`. -/
def levelValues (data : Nat → ℚ) (nx ny k : Nat) : List ℚ :=
  (List.range ny).flatMap (fun j =>
    (List.range nx).map (fun i => data (statIndex nx ny k j i)))

/-- The `(min, max, avg)` accumulator of level `k` after the nested loops of
`print_statistics` (lines 57-68): all three seeded with `0.0`, then updated
by `statUpdate` for each sample in loop order. -/
def levelStats (data : Nat → ℚ) (nx ny k : Nat) : ℚ × ℚ × ℚ :=
  (levelValues data nx ny k).foldl statUpdate (0, 0, 0)

/-- The report printed by `print_statistics` (lines 52-71): one tuple per
level `k` in `[0,nz)`, printed as `k+1`, then `avg / (nx*ny)`, then `min`,
then `max` (line 69). -/
def print_statistics (data : Nat → ℚ) (nx ny nz : Nat) :
    List (Nat × ℚ × ℚ × ℚ) :=
  (List.range nz).map (fun k =>
    let s := levelStats data nx ny k
    (k + 1, s.2.2 / ((nx * ny : Nat) : ℚ), s.1, s.2.1))

/-- One NetCDF library call made by `main`, as wrapped by the `NC` macro. -/
inductive NcStep where
  | create (path : String)
  | defDim (dimName : String) (len : Nat)
  | defVar (varName : String) (isFloat : Bool) (rank : Nat) (dims : List String)
  | defDeflate (shuffle : Bool) (deflate : Bool) (level : Nat)
  | enddef
  | putVar
  | close
deriving DecidableEq

/-- The sequence of NetCDF calls issued by `main` (lines 191-208), in source
order.  For `nz > 1` the dimensions are defined `x`, `y`, `z` (lines
193-195) and the variable gets the dimension-id array `[z, y, x]` (line
196); otherwise `x`, `y` are defined (lines 199-200) and the variable gets
`[y, x]` (line 201).  Then deflate with no shuffle at level 4 (line 203),
enddef, the bulk write, and close. -/
def writerSteps (outputfile : String) (nx ny nz : Nat) : List NcStep :=
  [NcStep.create outputfile] ++
  (if nz > 1 then
    [NcStep.defDim "x" nx, NcStep.defDim "y" ny, NcStep.defDim "z" nz,
     NcStep.defVar "var" true 3 ["z", "y", "x"]]
  else
    [NcStep.defDim "x" nx, NcStep.defDim "y" ny,
     NcStep.defVar "var" true 2 ["y", "x"]]) ++
  [NcStep.defDeflate false true 4, NcStep.enddef, NcStep.putVar, NcStep.close]

/-- The names passed to `nc_def_dim`, in the order the calls are made. -/
def defDimNames (outputfile : String) (nx ny nz : Nat) : List String :=
  (writerSteps outputfile nx ny nz).filterMap (fun s =>
    match s with
    | NcStep.defDim n _ => some n
    | _ => none)

/-- The `nc_def_var` calls made by `main`: name, float tag, rank, and the
dimension names in variable order. -/
def ncVarDefs (outputfile : String) (nx ny nz : Nat) :
    List (String × Bool × Nat × List String) :=
  (writerSteps outputfile nx ny nz).filterMap (fun s =>
    match s with
    | NcStep.defVar n f r ds => some (n, f, r, ds)
    | _ => none)

/-- The `nc_def_var_deflate` calls made by `main`: shuffle flag, deflate
flag, deflate level. -/
def deflateDefs (outputfile : String) (nx ny nz : Nat) :
    List (Bool × Bool × Nat) :=
  (writerSteps outputfile nx ny nz).filterMap (fun s =>
    match s with
    | NcStep.defDeflate sh d l => some (sh, d, l)
    | _ => none)

/-- The `NC` macro (lines 21-29) applied to every step: each call is made
and its own outcome (from the library, modelled by `env`) is reported; no
outcome aborts the sequence. -/
def reportSteps (env : NcStep → Bool) (steps : List NcStep) :
    List (NcStep × Bool) :=
  steps.map (fun s => (s, env s))

/-- What one run of `main` (lines 171-214, after option parsing with both
paths present) produces: the decode status it prints at line 187, the
per-step NetCDF report, and the statistics report. -/
structure RunOutput where
  decodeStatus : Int
  writerReport : List (NcStep × Bool)
  statsReport : List (Nat × ℚ × ℚ × ℚ)

/-- The orchestrator, embedded from `main` lines 171-214: allocate the
buffer (`initBuf` stands for the uninitialised `malloc` contents), call the
decoder, print its status, then run every NetCDF step and the statistics
unconditionally.  The decode status is never examined. -/
def mainPipeline (cfg : TileConfig) (outputfile : String) (bytes : List Byte)
    (initBuf : Nat → ℚ) (env : NcStep → Bool) : RunOutput :=
  let dres := decode bytes cfg
  let status : Int := match dres with
    | Except.ok _ => 0
    | Except.error _ => 1
  let data : Nat → ℚ := match dres with
    | Except.ok f => fun n => f.getD n (initBuf n)
    | Except.error _ => initBuf
  ⟨status,
   reportSteps env (writerSteps outputfile cfg.nx cfg.ny cfg.nz),
   print_statistics data cfg.nx cfg.ny cfg.nz⟩

/-- The statistics loop body is a min update, a max update and a running
sum: folding `statUpdate` from `(m, M, s)` yields the fold of `min` from
`m`, the fold of `max` from `M`, and `s` plus the sum. -/
theorem foldl_statUpdate (l : List ℚ) (m M s : ℚ) :
    l.foldl statUpdate (m, M, s) = (l.foldl min m, l.foldl max M, s + l.sum) := by
  induction l generalizing m M s with
  | nil => simp
  | cons d t ih =>
    have hmin : (if d < m then d else m) = min m d := by
      rw [min_def]; split_ifs <;> first | rfl | linarith
    have hmax : (if M < d then d else M) = max M d := by
      rw [max_def]; split_ifs <;> first | rfl | linarith
    have hstep : statUpdate (m, M, s) d = (min m d, max M d, s + d) := by
      show (if d < m then d else m, if M < d then d else M, s + d) = _
      rw [hmin, hmax]
    simp only [List.foldl_cons, List.sum_cons]
    rw [hstep, ih, add_assoc]

/-- Folding `min` never goes above its seed. -/
theorem foldl_min_le (l : List ℚ) (m : ℚ) : l.foldl min m ≤ m := by
  induction l generalizing m with
  | nil => exact le_refl m
  | cons d t ih =>
    rw [List.foldl_cons]
    exact le_trans (ih (min m d)) (min_le_left m d)

/-- Folding `max` never goes below its seed. -/
theorem le_foldl_max (l : List ℚ) (m : ℚ) : m ≤ l.foldl max m := by
  induction l generalizing m with
  | nil => exact le_refl m
  | cons d t ih =>
    rw [List.foldl_cons]
    exact le_trans (le_max_left m d) (ih (max m d))

/-- If the seed is below every element, folding `min` returns the seed. -/
theorem foldl_min_of_le (l : List ℚ) (m : ℚ) (h : ∀ x ∈ l, m ≤ x) :
    l.foldl min m = m := by
  induction l with
  | nil => rfl
  | cons d t ih =>
    rw [List.foldl_cons, min_eq_left (h d (by simp))]
    exact ih (fun x hx => h x (by simp [hx]))

/-- If the seed is above every element, folding `max` returns the seed. -/
theorem foldl_max_of_le (l : List ℚ) (m : ℚ) (h : ∀ x ∈ l, x ≤ m) :
    l.foldl max m = m := by
  induction l with
  | nil => rfl
  | cons d t ih =>
    rw [List.foldl_cons, max_eq_left (h d (by simp))]
    exact ih (fun x hx => h x (by simp [hx]))

/-- Closed form of the level accumulator: zero-seeded min fold, zero-seeded
max fold, and the exact sum of the level's samples. -/
theorem levelStats_eq (data : Nat → ℚ) (nx ny k : Nat) :
    levelStats data nx ny k =
      ((levelValues data nx ny k).foldl min 0,
       (levelValues data nx ny k).foldl max 0,
       (levelValues data nx ny k).sum) := by
  unfold levelStats
  rw [foldl_statUpdate, zero_add]

/-- The length of a flatMap whose pieces all have the same length. -/
theorem length_flatMap_const {α β : Type} (L : List α) (f : α → List β) (c : Nat)
    (h : ∀ a ∈ L, (f a).length = c) : (L.flatMap f).length = L.length * c := by
  induction L with
  | nil => simp
  | cons a t ih =>
    simp only [List.flatMap_cons, List.length_append, List.length_cons]
    rw [h a (by simp), ih (fun x hx => h x (by simp [hx]))]
    ring

/-- Each level has exactly `nx * ny` samples. -/
theorem levelValues_length (data : Nat → ℚ) (nx ny k : Nat) :
    (levelValues data nx ny k).length = nx * ny := by
  unfold levelValues
  rw [length_flatMap_const _ _ nx (fun a _ => by simp), List.length_range,
    mul_comm]

/-- The samples of a level are exactly the buffer entries at the loop
indices. -/
theorem mem_levelValues (data : Nat → ℚ) (nx ny k : Nat) (x : ℚ) :
    x ∈ levelValues data nx ny k ↔
      ∃ j < ny, ∃ i < nx, data (statIndex nx ny k j i) = x := by
  simp [levelValues]

/-- The index `k * nx * ny + j * nx + i` is below `nx * ny * nz` whenever
`k < nz`, `j < ny`, `i < nx`. -/
theorem statIndex_lt (nx ny nz k j i : Nat)
    (hk : k < nz) (hj : j < ny) (hi : i < nx) :
    statIndex nx ny k j i < nx * ny * nz := by
  unfold statIndex
  calc k * nx * ny + j * nx + i
      < k * nx * ny + j * nx + nx := by omega
    _ = k * (nx * ny) + (j + 1) * nx := by ring
    _ ≤ k * (nx * ny) + ny * nx := by
        have h1 : (j + 1) * nx ≤ ny * nx := Nat.mul_le_mul_right nx hj
        omega
    _ = (k + 1) * (nx * ny) := by ring
    _ ≤ nz * (nx * ny) := Nat.mul_le_mul_right (nx * ny) hk
    _ = nx * ny * nz := by ring

/-- Claim C1: per-level min and max accumulators are seeded with 0.0 rather
than the first sample, so an all-positive level reports min = 0, an
all-negative level reports max = 0, and the level with samples 10.0, 20.0
reports min = 0, max = 20, mean = 15. -/
theorem C1_zero_seeded_min_max :
    (∀ data nx ny k, (∀ v ∈ Geogrid.levelValues data nx ny k, 0 < v) →
        (Geogrid.levelStats data nx ny k).1 = 0) ∧
    (∀ data nx ny k, (∀ v ∈ Geogrid.levelValues data nx ny k, v < 0) →
        (Geogrid.levelStats data nx ny k).2.1 = 0) ∧
    Geogrid.print_statistics (fun n => if n = 0 then (10 : ℚ) else 20) 2 1 1 =
      [(1, 15, 0, 20)] := by
  refine ⟨?_, ?_, ?_⟩
  · intro data nx ny k h
    rw [levelStats_eq]
    exact foldl_min_of_le _ _ (fun x hx => le_of_lt (h x hx))
  · intro data nx ny k h
    rw [levelStats_eq]
    exact foldl_max_of_le _ _ (fun x hx => le_of_lt (h x hx))
  · have hlv : Geogrid.levelValues (fun n => if n = 0 then (10 : ℚ) else 20) 2 1 0
        = [10, 20] := by decide
    simp only [print_statistics]
    rw [show List.range 1 = [0] from rfl]
    simp only [List.map_cons, List.map_nil]
    rw [levelStats_eq, hlv]
    norm_num [min_def, max_def]

/-- Witness for C1 at concrete levels: an all-positive level reports
min = 0 and an all-negative level reports max = 0. -/
theorem C1_zero_seeded_min_max_witness :
    (Geogrid.levelStats (fun _ => (1 : ℚ)) 1 1 0).1 = 0 ∧
    (Geogrid.levelStats (fun _ => (-1 : ℚ)) 1 1 0).2.1 = 0 :=
  ⟨C1_zero_seeded_min_max.1 (fun _ => (1 : ℚ)) 1 1 0 (by decide),
   C1_zero_seeded_min_max.2.1 (fun _ => (-1 : ℚ)) 1 1 0 (by decide)⟩

/-- Claim C7: the report has one line per level, in ascending order with
1-based numbering, each line being level, mean, min, max with the mean
first, and the mean is the exact sum of the level's `nx * ny` samples
divided by `nx * ny`, unaffected by the zero seeding. -/
theorem C7_report_one_line_per_level (data : Nat → ℚ) (nx ny nz k : Nat)
    (hk : k < nz) :
    (Geogrid.print_statistics data nx ny nz).length = nz ∧
    (Geogrid.levelValues data nx ny k).length = nx * ny ∧
    (Geogrid.print_statistics data nx ny nz)[k]? =
      some (k + 1,
        (Geogrid.levelValues data nx ny k).sum / ((nx * ny : Nat) : ℚ),
        (Geogrid.levelValues data nx ny k).foldl min 0,
        (Geogrid.levelValues data nx ny k).foldl max 0) := by
  refine ⟨by simp [print_statistics], levelValues_length data nx ny k, ?_⟩
  unfold print_statistics
  rw [List.getElem?_map, List.getElem?_range hk]
  simp [levelStats_eq]

/-- Witness for C7 at a concrete field. -/
theorem C7_report_one_line_per_level_witness :
    (Geogrid.print_statistics (fun _ => (3 : ℚ)) 1 1 1).length = 1 ∧
    (Geogrid.levelValues (fun _ => (3 : ℚ)) 1 1 0).length = 1 * 1 ∧
    (Geogrid.print_statistics (fun _ => (3 : ℚ)) 1 1 1)[0]? =
      some (0 + 1,
        (Geogrid.levelValues (fun _ => (3 : ℚ)) 1 1 0).sum / ((1 * 1 : Nat) : ℚ),
        (Geogrid.levelValues (fun _ => (3 : ℚ)) 1 1 0).foldl min 0,
        (Geogrid.levelValues (fun _ => (3 : ℚ)) 1 1 0).foldl max 0) :=
  C7_report_one_line_per_level (fun _ => (3 : ℚ)) 1 1 1 0 (by decide)

/-- Claim C9: every reported line has min at most 0 and max at least 0, a
consequence of the zero-seeded accumulators. -/
theorem C9_min_nonpos_max_nonneg (data : Nat → ℚ) (nx ny nz : Nat) :
    ∀ e ∈ Geogrid.print_statistics data nx ny nz, e.2.2.1 ≤ 0 ∧ 0 ≤ e.2.2.2 := by
  intro e he
  simp only [print_statistics, List.mem_map, List.mem_range] at he
  obtain ⟨p, hp, rfl⟩ := he
  constructor
  · show (levelStats data nx ny p).1 ≤ 0
    rw [levelStats_eq]
    exact foldl_min_le _ _
  · show 0 ≤ (levelStats data nx ny p).2.1
    rw [levelStats_eq]
    exact le_foldl_max _ _

/-- Evaluation of the report on the constant-zero one-cell field. -/
theorem print_statistics_const_zero :
    print_statistics (fun _ => (0 : ℚ)) 1 1 1 = [(1, 0, 0, 0)] := by
  have hlv : levelValues (fun _ => (0 : ℚ)) 1 1 0 = [0] := by decide
  simp only [print_statistics]
  rw [show List.range 1 = [0] from rfl]
  simp only [List.map_cons, List.map_nil]
  rw [levelStats_eq, hlv]
  norm_num [min_def, max_def]

/-- Witness for C9 at a concrete report line. -/
theorem C9_min_nonpos_max_nonneg_witness :
    (((1 : Nat), (0 : ℚ), (0 : ℚ), (0 : ℚ)) : Nat × ℚ × ℚ × ℚ).2.2.1 ≤ 0 ∧
    (0 : ℚ) ≤ (((1 : Nat), (0 : ℚ), (0 : ℚ), (0 : ℚ)) : Nat × ℚ × ℚ × ℚ).2.2.2 :=
  C9_min_nonpos_max_nonneg (fun _ => 0) 1 1 1 ((1 : Nat), 0, 0, 0)
    (by rw [print_statistics_const_zero]; simp)

/-- Claim C10: every index `k * nx * ny + j * nx + i` computed by the
statistics loops, for `k < nz`, `j < ny`, `i < nx`, lies below
`nx * ny * nz`, and every sample the aggregator reads is a buffer entry at
such an in-bounds index. -/
theorem C10_stat_indices_in_bounds (data : Nat → ℚ) (nx ny nz k j i : Nat)
    (hk : k < nz) (hj : j < ny) (hi : i < nx) :
    Geogrid.statIndex nx ny k j i < nx * ny * nz ∧
    ∀ v ∈ Geogrid.levelValues data nx ny k,
      ∃ idx, idx < nx * ny * nz ∧ v = data idx := by
  refine ⟨statIndex_lt nx ny nz k j i hk hj hi, ?_⟩
  intro v hv
  rw [mem_levelValues] at hv
  obtain ⟨j', hj', i', hi', rfl⟩ := hv
  exact ⟨statIndex nx ny k j' i', statIndex_lt nx ny nz k j' i' hk hj' hi', rfl⟩

/-- Witness for C10 at a concrete grid. -/
theorem C10_stat_indices_in_bounds_witness :
    Geogrid.statIndex 2 3 1 2 1 < 2 * 3 * 2 ∧
    ∀ v ∈ Geogrid.levelValues (fun n => (n : ℚ)) 2 3 1,
      ∃ idx, idx < 2 * 3 * 2 ∧ v = ((idx : Nat) : ℚ) :=
  C10_stat_indices_in_bounds (fun n => (n : ℚ)) 2 3 2 1 2 1
    (by decide) (by decide) (by decide)

/-- Claim C2 (amended): a short input makes the modelled decoder fail with
the truncated-input error and `main` prints a nonzero status, but the
pipeline does not stop: the full dataset-writer step report is still
produced and the statistics still run, on the untouched buffer. -/
theorem C2_decode_failure_not_fatal (cfg : TileConfig) (outputfile : String)
    (bytes : List Byte) (initBuf : Nat → ℚ) (env : NcStep → Bool)
    (hs : cfg.scale ≠ 0)
    (hlen : bytes.length < cfg.wsize * cfg.nx * cfg.ny * cfg.nz) :
    Geogrid.decode bytes cfg = Except.error "TruncatedInputError" ∧
    (Geogrid.mainPipeline cfg outputfile bytes initBuf env).decodeStatus = 1 ∧
    (Geogrid.mainPipeline cfg outputfile bytes initBuf env).writerReport =
      Geogrid.reportSteps env (Geogrid.writerSteps outputfile cfg.nx cfg.ny cfg.nz) ∧
    (Geogrid.mainPipeline cfg outputfile bytes initBuf env).statsReport =
      Geogrid.print_statistics initBuf cfg.nx cfg.ny cfg.nz := by
  have hdec : decode bytes cfg = Except.error "TruncatedInputError" := by
    unfold decode
    rw [if_neg hs, if_pos hlen]
  refine ⟨hdec, ?_, ?_, ?_⟩ <;> simp [mainPipeline, hdec]

/-- Counterexample to C2 as stated: on a three-byte input for a
one-sample, four-byte-word grid, decode fails (status 1) yet all eight
dataset-writer steps run and the statistics report is produced. -/
theorem C2_pipeline_continues_after_decode_failure :
    (Geogrid.mainPipeline ⟨1, 1, 1, 4, false, false, 1⟩ "out.nc" [0, 0, 0]
        (fun _ => 0) (fun _ => true)).decodeStatus ≠ 0 ∧
    (Geogrid.mainPipeline ⟨1, 1, 1, 4, false, false, 1⟩ "out.nc" [0, 0, 0]
        (fun _ => 0) (fun _ => true)).writerReport.length = 8 ∧
    (Geogrid.mainPipeline ⟨1, 1, 1, 4, false, false, 1⟩ "out.nc" [0, 0, 0]
        (fun _ => 0) (fun _ => true)).statsReport.length = 1 := by
  refine ⟨?_, ?_, ?_⟩ <;> decide

/-- Witness for the amended C2 at a concrete truncated input. -/
theorem C2_decode_failure_not_fatal_witness :
    Geogrid.decode [0, 0, 0] ⟨1, 1, 1, 4, false, false, 1⟩ =
      Except.error "TruncatedInputError" ∧
    (Geogrid.mainPipeline ⟨1, 1, 1, 4, false, false, 1⟩ "w.nc" [0, 0, 0]
        (fun _ => 0) (fun _ => true)).decodeStatus = 1 ∧
    (Geogrid.mainPipeline ⟨1, 1, 1, 4, false, false, 1⟩ "w.nc" [0, 0, 0]
        (fun _ => 0) (fun _ => true)).writerReport =
      Geogrid.reportSteps (fun _ => true) (Geogrid.writerSteps "w.nc" 1 1 1) ∧
    (Geogrid.mainPipeline ⟨1, 1, 1, 4, false, false, 1⟩ "w.nc" [0, 0, 0]
        (fun _ => 0) (fun _ => true)).statsReport =
      Geogrid.print_statistics (fun _ => 0) 1 1 1 :=
  C2_decode_failure_not_fatal ⟨1, 1, 1, 4, false, false, 1⟩ "w.nc" [0, 0, 0]
    (fun _ => 0) (fun _ => true) (by norm_num) (by decide)

/-- Claim C3 (amended): the `nc_def_dim` calls are made in the order
`x, y, z` when `nz > 1` and `x, y` otherwise; the `z, y, x` (resp. `y, x`)
order is the variable's dimension order, not the definition order. -/
theorem C3_dim_definition_order (outputfile : String) (nx ny nz : Nat) :
    (1 < nz →
      Geogrid.defDimNames outputfile nx ny nz = ["x", "y", "z"] ∧
      (Geogrid.ncVarDefs outputfile nx ny nz).map (fun v => v.2.2.2) =
        [["z", "y", "x"]]) ∧
    (¬ 1 < nz →
      Geogrid.defDimNames outputfile nx ny nz = ["x", "y"] ∧
      (Geogrid.ncVarDefs outputfile nx ny nz).map (fun v => v.2.2.2) =
        [["y", "x"]]) := by
  constructor <;> intro h <;>
    simp [defDimNames, ncVarDefs, writerSteps, h]

/-- Counterexample to C3 as stated: the dimensions are not defined in the
order `z, y, x` (nor `y, x` for a single level); the actual definition
order starts with `x`. -/
theorem C3_dims_defined_x_first :
    Geogrid.defDimNames "out.nc" 1 1 2 ≠ ["z", "y", "x"] ∧
    Geogrid.defDimNames "out.nc" 1 1 1 ≠ ["y", "x"] ∧
    Geogrid.defDimNames "out.nc" 1 1 2 = ["x", "y", "z"] ∧
    Geogrid.defDimNames "out.nc" 1 1 1 = ["x", "y"] := by
  refine ⟨?_, ?_, ?_, ?_⟩ <;> decide

/-- Witness for the amended C3 at `nz = 2` and `nz = 1`. -/
theorem C3_dim_definition_order_witness :
    (Geogrid.defDimNames "w.nc" 3 4 2 = ["x", "y", "z"] ∧
      (Geogrid.ncVarDefs "w.nc" 3 4 2).map (fun v => v.2.2.2) =
        [["z", "y", "x"]]) ∧
    (Geogrid.defDimNames "w.nc" 3 4 1 = ["x", "y"] ∧
      (Geogrid.ncVarDefs "w.nc" 3 4 1).map (fun v => v.2.2.2) =
        [["y", "x"]]) :=
  ⟨(C3_dim_definition_order "w.nc" 3 4 2).1 (by decide),
   (C3_dim_definition_order "w.nc" 3 4 1).2 (by decide)⟩

/-- Claim C4: every dataset step is attempted whatever the outcomes of the
other steps, each step is reported with its own outcome, the run's report
is exactly the per-step report, and the statistics report (one line per
level) is always reached. -/
theorem C4_steps_independent (outputfile : String) (nx ny nz : Nat)
    (env : NcStep → Bool) (cfg : TileConfig) (bytes : List Byte)
    (initBuf : Nat → ℚ) :
    (Geogrid.reportSteps env (Geogrid.writerSteps outputfile nx ny nz)).map
        Prod.fst = Geogrid.writerSteps outputfile nx ny nz ∧
    (∀ p ∈ Geogrid.reportSteps env (Geogrid.writerSteps outputfile nx ny nz),
      p.2 = env p.1) ∧
    (Geogrid.mainPipeline cfg outputfile bytes initBuf env).writerReport =
      Geogrid.reportSteps env
        (Geogrid.writerSteps outputfile cfg.nx cfg.ny cfg.nz) ∧
    (Geogrid.mainPipeline cfg outputfile bytes initBuf env).statsReport.length =
      cfg.nz := by
  refine ⟨?_, ?_, rfl, ?_⟩
  · unfold reportSteps
    rw [List.map_map]
    exact List.map_id _
  · intro p hp
    simp only [reportSteps, List.mem_map] at hp
    obtain ⟨s, _, rfl⟩ := hp
    rfl
  · simp [mainPipeline, print_statistics]

/-- Witness for C4 at a concrete run whose every step fails. -/
theorem C4_steps_independent_witness :
    ((Geogrid.reportSteps (fun _ => false) (Geogrid.writerSteps "w.nc" 1 1 1)).map
        Prod.fst = Geogrid.writerSteps "w.nc" 1 1 1) ∧
    ((NcStep.close, false) : Geogrid.NcStep × Bool).2 =
      (fun _ => false) NcStep.close ∧
    (Geogrid.mainPipeline ⟨1, 1, 1, 4, false, false, 1⟩ "w.nc" []
        (fun _ => 0) (fun _ => false)).statsReport.length = 1 :=
  ⟨(C4_steps_independent "w.nc" 1 1 1 (fun _ => false)
      ⟨1, 1, 1, 4, false, false, 1⟩ [] (fun _ => 0)).1,
   (C4_steps_independent "w.nc" 1 1 1 (fun _ => false)
      ⟨1, 1, 1, 4, false, false, 1⟩ [] (fun _ => 0)).2.1
      (NcStep.close, false) (by decide),
   (C4_steps_independent "w.nc" 1 1 1 (fun _ => false)
      ⟨1, 1, 1, 4, false, false, 1⟩ [] (fun _ => 0)).2.2.2⟩

/-- Claim C5: the single variable definition has rank 2 over `(y, x)` when
`nz = 1` and rank 3 over `(z, y, x)` when `nz > 1`, and `x` is the
fastest-varying index of the buffer layout. -/
theorem C5_variable_rank (outputfile : String) (nx ny nz : Nat) :
    (nz = 1 →
      Geogrid.ncVarDefs outputfile nx ny nz =
        [("var", true, 2, ["y", "x"])]) ∧
    (1 < nz →
      Geogrid.ncVarDefs outputfile nx ny nz =
        [("var", true, 3, ["z", "y", "x"])]) ∧
    (∀ k j i, Geogrid.statIndex nx ny k j (i + 1) =
      Geogrid.statIndex nx ny k j i + 1) := by
  refine ⟨?_, ?_, ?_⟩
  · intro h
    subst h
    simp [ncVarDefs, writerSteps]
  · intro h
    simp [ncVarDefs, writerSteps, h]
  · intro k j i
    unfold statIndex
    ring

/-- Witness for C5 at `nz = 1` and `nz = 5`. -/
theorem C5_variable_rank_witness :
    Geogrid.ncVarDefs "w.nc" 3 4 1 = [("var", true, 2, ["y", "x"])] ∧
    Geogrid.ncVarDefs "w.nc" 3 4 5 = [("var", true, 3, ["z", "y", "x"])] :=
  ⟨(C5_variable_rank "w.nc" 3 4 1).1 rfl,
   (C5_variable_rank "w.nc" 3 4 5).2.1 (by decide)⟩

/-- Claim C6: exactly one variable is defined, it is named `var` and is a
float, and the single deflate call disables shuffle, enables deflate, and
uses level 4. -/
theorem C6_single_var_deflate (outputfile : String) (nx ny nz : Nat) :
    (Geogrid.ncVarDefs outputfile nx ny nz).map (fun v => (v.1, v.2.1)) =
      [("var", true)] ∧
    Geogrid.deflateDefs outputfile nx ny nz = [(false, true, 4)] := by
  by_cases h : 1 < nz <;>
    simp [ncVarDefs, deflateDefs, writerSteps, h]

/-- Claim C8 (amended): a zero scale is not rejected by the orchestrator;
the decoder is still invoked (its modelled contract reports the invalid
scale as the nonzero status `main` prints) and the run continues through
the full dataset-writer report and the statistics. -/
theorem C8_scale_zero_not_rejected (cfg : TileConfig) (outputfile : String)
    (bytes : List Byte) (initBuf : Nat → ℚ) (env : NcStep → Bool)
    (hs : cfg.scale = 0) :
    Geogrid.decode bytes cfg = Except.error "InvalidScaleError" ∧
    (Geogrid.mainPipeline cfg outputfile bytes initBuf env).decodeStatus = 1 ∧
    (Geogrid.mainPipeline cfg outputfile bytes initBuf env).writerReport =
      Geogrid.reportSteps env (Geogrid.writerSteps outputfile cfg.nx cfg.ny cfg.nz) ∧
    (Geogrid.mainPipeline cfg outputfile bytes initBuf env).statsReport =
      Geogrid.print_statistics initBuf cfg.nx cfg.ny cfg.nz := by
  have hdec : decode bytes cfg = Except.error "InvalidScaleError" := by
    unfold decode
    rw [if_pos hs]
  refine ⟨hdec, ?_, ?_, ?_⟩ <;> simp [mainPipeline, hdec]

/-- Counterexample to C8 as stated: with scale 0 and a full-length input,
the run does not abort before decode; the decoder is invoked (status 1)
and all eight writer steps and the statistics still run. -/
theorem C8_run_does_not_abort_on_zero_scale :
    (Geogrid.mainPipeline ⟨1, 1, 1, 4, false, false, 0⟩ "out.nc" [0, 0, 0, 0]
        (fun _ => 0) (fun _ => true)).decodeStatus = 1 ∧
    (Geogrid.mainPipeline ⟨1, 1, 1, 4, false, false, 0⟩ "out.nc" [0, 0, 0, 0]
        (fun _ => 0) (fun _ => true)).writerReport.length = 8 ∧
    (Geogrid.mainPipeline ⟨1, 1, 1, 4, false, false, 0⟩ "out.nc" [0, 0, 0, 0]
        (fun _ => 0) (fun _ => true)).statsReport.length = 1 := by
  refine ⟨?_, ?_, ?_⟩ <;> decide

/-- Witness for the amended C8 at a concrete zero-scale configuration. -/
theorem C8_scale_zero_not_rejected_witness :
    Geogrid.decode [0, 0, 0, 0] ⟨1, 1, 1, 4, false, false, 0⟩ =
      Except.error "InvalidScaleError" ∧
    (Geogrid.mainPipeline ⟨1, 1, 1, 4, false, false, 0⟩ "w.nc" [0, 0, 0, 0]
        (fun _ => 0) (fun _ => true)).decodeStatus = 1 ∧
    (Geogrid.mainPipeline ⟨1, 1, 1, 4, false, false, 0⟩ "w.nc" [0, 0, 0, 0]
        (fun _ => 0) (fun _ => true)).writerReport =
      Geogrid.reportSteps (fun _ => true) (Geogrid.writerSteps "w.nc" 1 1 1) ∧
    (Geogrid.mainPipeline ⟨1, 1, 1, 4, false, false, 0⟩ "w.nc" [0, 0, 0, 0]
        (fun _ => 0) (fun _ => true)).statsReport =
      Geogrid.print_statistics (fun _ => 0) 1 1 1 :=
  C8_scale_zero_not_rejected ⟨1, 1, 1, 4, false, false, 0⟩ "w.nc" [0, 0, 0, 0]
    (fun _ => 0) (fun _ => true) rfl

end Geogrid
